import Mathlib

/-!
Shallow embedding of `src/volume-adjuster/volume_adjuster.py`, a Flask
service exposing the host master volume over HTTP.  The native pycaw
audio calls (`GetMasterScalarVolume`, `SetMasterScalarVolume`, device
activation) are external effects: each embedded operation takes the
outcome of the native call it performs as an explicit `NativeResult`
argument.  Volume levels are modelled as rationals.
-/

/-- Outcome of a single native audio API call: either it returns a value
or it raises an exception (any exception is caught by the controller). -/
inductive NativeResult (α : Type) where
  | ok (val : α)
  | err
deriving DecidableEq

/-- State of the Python `VolumeController` object: `volume_interface` is
`true` iff `self.volume_interface` is a (non-null) pointer, and
`current_volume` is `self.current_volume`. -/
structure VolumeController where
  volume_interface : Bool
  current_volume : ℚ
deriving DecidableEq

/-- The state set by `__init__` just before `_initialize_audio` runs:
`self.volume_interface = None`, `self.current_volume = 0.5`. -/
def VolumeController.initState : VolumeController :=
  { volume_interface := false, current_volume := 1/2 }

/-- Embedding of `VolumeController._initialize_audio`.  `pycaw` is the
module flag `PYCAW_AVAILABLE`; `openCall` is the combined outcome of
`GetSpeakers`/`Activate`/`cast` (which assigns `self.volume_interface`
on success); `readCall` is the outcome of the seeding
`GetMasterScalarVolume` read.  Note the handle assignment happens before
the seed read, so a failing seed read leaves the handle set. -/
def initialize_audio (pycaw : Bool) (openCall : NativeResult Unit)
    (readCall : NativeResult ℚ) (st : VolumeController) :
    Bool × VolumeController :=
  if !pycaw then
    (false, st)
  else
    match openCall with
    | .err => (false, st)
    | .ok _ =>
      let st1 := { st with volume_interface := true }
      match readCall with
      | .ok v => (true, { st1 with current_volume := v })
      | .err => (false, st1)

/-- Embedding of `VolumeController.set_volume`.  `setCall` is the
outcome of `SetMasterScalarVolume(level, None)` on the clamped level. -/
def set_volume (st : VolumeController) (level : ℚ)
    (setCall : NativeResult Unit) : Bool × VolumeController :=
  if !st.volume_interface then
    (false, st)
  else
    match setCall with
    | .ok _ =>
      let clamped := max 0 (min 1 level)
      (true, { st with current_volume := clamped })
    | .err => (false, st)

/-- Embedding of `VolumeController.get_volume`.  `readCall` is the
outcome of `GetMasterScalarVolume()`.  On success the raw native value
is stored in the cache and returned, with no clamping. -/
def get_volume (st : VolumeController) (readCall : NativeResult ℚ) :
    ℚ × VolumeController :=
  if !st.volume_interface then
    (st.current_volume, st)
  else
    match readCall with
    | .ok v => (v, { st with current_volume := v })
    | .err => (st.current_volume, st)

/-- JSON values, as delivered by Flask's `request.get_json()`. -/
inductive Json where
  | null
  | bool (b : Bool)
  | num (q : ℚ)
  | str (s : String)
  | arr (elems : List Json)
  | obj (fields : List (String × Json))

/-- The two Python exception classes `float()` can raise on a JSON
value: `ValueError` for an unparsable string, `TypeError` for an
argument that is not a string or a real number. -/
inductive PyError where
  | valueError
  | typeError
deriving DecidableEq

/-- Digits of a non-empty all-digit character list, as a natural
number; `none` otherwise.  Helper for the model of Python `float()`. -/
def parseDigits (cs : List Char) : Option Nat :=
  if cs.isEmpty then none
  else if cs.all Char.isDigit then
    some (cs.foldl (fun n c => 10 * n + (c.toNat - 48)) 0)
  else none

/-- Unsigned decimal literal `digits`, `digits.digits`, `digits.` or
`.digits`, as a rational.  Helper for the model of Python `float()`. -/
def parseUnsignedDecimal (cs : List Char) : Option ℚ :=
  match cs.splitOn '.' with
  | [intPart] => (parseDigits intPart).map (fun n => (n : ℚ))
  | [intPart, fracPart] =>
    if intPart.isEmpty && fracPart.isEmpty then none
    else
      let ip := if intPart.isEmpty then some 0 else parseDigits intPart
      let fp := if fracPart.isEmpty then some 0 else parseDigits fracPart
      match ip, fp with
      | some i, some f =>
        some (mkRat (i * 10 ^ fracPart.length + f) (10 ^ fracPart.length))
      | _, _ => none
  | _ => none

/-- Surrounding whitespace removed from a character list.  Helper for
the model of Python `float()`, which strips whitespace first. -/
def stripWhitespace (cs : List Char) : List Char :=
  ((cs.dropWhile Char.isWhitespace).reverse.dropWhile Char.isWhitespace).reverse

/-- Model of Python's built-in `float()` applied to a string: strips
surrounding whitespace, then accepts an optionally signed plain decimal
literal.  (Exponent, infinity and NaN forms are outside the inputs this
development exercises.) -/
def parsePyFloat (s : String) : Option ℚ :=
  match stripWhitespace s.toList with
  | '+' :: rest => parseUnsignedDecimal rest
  | '-' :: rest => (parseUnsignedDecimal rest).map (fun q => -q)
  | cs => parseUnsignedDecimal cs

/-- Model of Python's built-in `float()` applied to a decoded JSON
value, as in `float(data['level'])`: numbers pass through, booleans
coerce to 1.0/0.0, strings are parsed (`ValueError` on failure), and
`None`, lists and dicts raise `TypeError`. -/
def pyFloat : Json → Except PyError ℚ
  | .num q => .ok q
  | .bool true => .ok 1
  | .bool false => .ok 0
  | .str s =>
    match parsePyFloat s with
    | some q => .ok q
    | none => .error .valueError
  | .null => .error .typeError
  | .arr _ => .error .typeError
  | .obj _ => .error .typeError

instance : DecidableEq (Except PyError ℚ) := fun a b =>
  match a, b with
  | .ok x, .ok y =>
    if h : x = y then isTrue (congrArg Except.ok h)
    else isFalse (fun hc => h (Except.ok.inj hc))
  | .error x, .error y =>
    if h : x = y then isTrue (congrArg Except.error h)
    else isFalse (fun hc => h (Except.error.inj hc))
  | .ok _, .error _ => isFalse (fun hc => Except.noConfusion hc)
  | .error _, .ok _ => isFalse (fun hc => Except.noConfusion hc)

/-- JSON response body produced by a route handler. -/
inductive Resp where
  | err (msg : String)
  | okSet (level : ℚ)
  | okGet (level : ℚ)
  | excText (e : PyError)
deriving DecidableEq

/-- Embedding of the `POST /volume` route handler `set_volume`.  `body`
is the decoded JSON object from `request.get_json()` (`none` when no
JSON body decodes; an empty field list is Python-falsy, like `None`).
`setCall` is the native outcome the controller would see.  Returns the
`(status, body)` pair and the controller state after the request. -/
def handle_post_volume (body : Option (List (String × Json)))
    (st : VolumeController) (setCall : NativeResult Unit) :
    (Nat × Resp) × VolumeController :=
  match body with
  | none => ((400, .err "Missing level parameter"), st)
  | some data =>
    if data.isEmpty then
      ((400, .err "Missing level parameter"), st)
    else
      match data.lookup "level" with
      | none => ((400, .err "Missing level parameter"), st)
      | some v =>
        match pyFloat v with
        | .error .valueError => ((400, .err "Invalid level value"), st)
        | .error .typeError => ((500, .excText .typeError), st)
        | .ok level =>
          if 0 ≤ level ∧ level ≤ 1 then
            match set_volume st level setCall with
            | (true, st') => ((200, .okSet level), st')
            | (false, st') => ((500, .err "Failed to set volume"), st')
          else
            ((400, .err "Level must be between 0.0 and 1.0"), st)

/-- Embedding of the `GET /volume` route handler `get_volume`.
`readCall` is the native outcome the controller sees.  The embedded
controller call is total, so the handler's `except` branch is dead. -/
def handle_get_volume (st : VolumeController) (readCall : NativeResult ℚ) :
    (Nat × Resp) × VolumeController :=
  let res := get_volume st readCall
  ((200, .okGet res.1), res.2)

/-- A volume value lies in the documented safe range [0.0, 1.0]. -/
def inUnitRange (q : ℚ) : Prop := 0 ≤ q ∧ q ≤ 1

lemma lookup_ne_nil {data : List (String × Json)} {v : Json}
    (hv : data.lookup "level" = some v) : data ≠ [] := by
  intro h
  subst h
  simp [List.lookup] at hv

lemma handle_post_volume_lookup (st : VolumeController)
    (setCall : NativeResult Unit) (data : List (String × Json)) (v : Json)
    (hv : data.lookup "level" = some v) :
    handle_post_volume (some data) st setCall =
      match pyFloat v with
      | .error .valueError => ((400, Resp.err "Invalid level value"), st)
      | .error .typeError => ((500, Resp.excText .typeError), st)
      | .ok level =>
        if 0 ≤ level ∧ level ≤ 1 then
          match set_volume st level setCall with
          | (true, st') => ((200, Resp.okSet level), st')
          | (false, st') => ((500, Resp.err "Failed to set volume"), st')
        else ((400, Resp.err "Level must be between 0.0 and 1.0"), st) := by
  cases data with
  | nil => simp [List.lookup] at hv
  | cons hd tl =>
    simp only [handle_post_volume, List.isEmpty_cons, hv]
    rfl

lemma set_volume_ok (st : VolumeController) (level : ℚ)
    (hi : st.volume_interface = true) :
    set_volume st level (.ok ()) =
      (true, { st with current_volume := max 0 (min 1 level) }) := by
  simp [set_volume, hi]

/-- C2: with no endpoint handle, `set_volume` returns `false` and leaves
the cache unchanged; with a handle, it clamps the level to [0,1] and on
native success stores the clamped value and returns `true`, while on
native failure it returns `false` with the cache unchanged. -/
theorem C2_set_volume_contract (st : VolumeController) (level : ℚ)
    (setCall : NativeResult Unit) :
    (st.volume_interface = false → set_volume st level setCall = (false, st)) ∧
    (st.volume_interface = true →
      set_volume st level (.ok ()) =
        (true, { st with current_volume := max 0 (min 1 level) })) ∧
    (st.volume_interface = true →
      set_volume st level NativeResult.err = (false, st)) := by
  refine ⟨fun hi => ?_, fun hi => set_volume_ok st level hi, fun hi => ?_⟩
  · simp [set_volume, hi]
  · simp [set_volume, hi]

/-- C2 witness at a concrete state and level. -/
theorem C2_set_volume_contract_witness :
    set_volume ⟨true, mkRat 1 2⟩ (mkRat 3 10) (.ok ()) =
      (true, ⟨true, mkRat 3 10⟩) := by
  have h := (C2_set_volume_contract ⟨true, mkRat 1 2⟩ (mkRat 3 10)
    NativeResult.err).2.1 rfl
  rw [h]
  decide

/-- C3 counterexample: when the device-open step succeeds but the
seeding volume read fails, `_initialize_audio` leaves the handle SET
(the assignment precedes the read), contradicting the claim that the
endpoint handle is empty after any initialization failure. -/
theorem C3_counterexample :
    (initialize_audio true (.ok ()) NativeResult.err
        VolumeController.initState).1 = false ∧
    (initialize_audio true (.ok ()) NativeResult.err
        VolumeController.initState).2.volume_interface = true := by
  decide

/-- C3 amended: if pycaw is missing or the device-open step fails,
initialization returns `false` and the whole state (handle and cache)
is unchanged; if the open step succeeds but the seed read fails,
initialization returns `false` and the cache retains its prior value,
but the handle remains set.  No exception reaches the caller (the
embedded operation is total). -/
theorem C3_initialize_failure (st : VolumeController)
    (openCall : NativeResult Unit) (readCall : NativeResult ℚ) :
    (initialize_audio false openCall readCall st = (false, st)) ∧
    (initialize_audio true NativeResult.err readCall st = (false, st)) ∧
    (initialize_audio true (.ok ()) NativeResult.err st =
      (false, { st with volume_interface := true })) := by
  refine ⟨?_, ?_, ?_⟩ <;> simp [initialize_audio]

/-- C5: `GET /volume` always answers 200 with the `get_volume` result,
where `get_volume` returns the cache unchanged without a handle,
caches and returns the fresh native value on a successful read, and
returns the stale cache on a failed read. -/
theorem C5_get_volume_contract (st : VolumeController)
    (readCall : NativeResult ℚ) (v : ℚ) :
    (handle_get_volume st readCall).1.1 = 200 ∧
    (handle_get_volume st readCall).1.2 = Resp.okGet (get_volume st readCall).1 ∧
    (st.volume_interface = false → get_volume st readCall = (st.current_volume, st)) ∧
    (st.volume_interface = true →
      get_volume st (.ok v) = (v, { st with current_volume := v })) ∧
    (st.volume_interface = true →
      get_volume st NativeResult.err = (st.current_volume, st)) := by
  refine ⟨rfl, rfl, fun hi => ?_, fun hi => ?_, fun hi => ?_⟩ <;>
    simp [get_volume, hi]

/-- C5 witness at a concrete state and native read. -/
theorem C5_get_volume_contract_witness :
    (handle_get_volume ⟨true, mkRat 1 2⟩ (.ok (mkRat 3 4))).1.1 = 200 := by
  exact (C5_get_volume_contract ⟨true, mkRat 1 2⟩ (.ok (mkRat 3 4)) 0).1

/-- C8: issuing the same `set_volume x` twice in a row (the native call
behaving the same both times) leaves the controller in the same state
as issuing it once, so a subsequent `get_volume` observes the same
result. -/
theorem C8_set_volume_idempotent (st : VolumeController) (x : ℚ)
    (setCall : NativeResult Unit) (readCall : NativeResult ℚ) :
    get_volume (set_volume (set_volume st x setCall).2 x setCall).2 readCall =
      get_volume (set_volume st x setCall).2 readCall := by
  obtain ⟨vi, cv⟩ := st
  cases vi <;> cases setCall <;> simp [set_volume]

lemma clamp_mem (level : ℚ) : inUnitRange (max 0 (min 1 level)) :=
  ⟨le_max_left 0 _, max_le zero_le_one (min_le_left 1 level)⟩

/-- C1 counterexample: `get_volume` stores the native read result in
the cache WITHOUT clamping, so a native read outside [0,1] lands in the
cache as-is — refuting the claim that every path writing
`current_volume` clamps before storing. -/
theorem C1_counterexample :
    (get_volume ⟨true, mkRat 1 2⟩ (.ok 2)).2.current_volume = 2 ∧
    ¬ ((get_volume ⟨true, mkRat 1 2⟩ (.ok 2)).2.current_volume ≤ 1) := by
  decide

/-- C1 amended: the cache stays in [0,1] provided native volume reads
return values in [0,1] (the AudioEndpoint contract): the initial seed
value 0.5 is in range, `set_volume` clamps before storing, and
`get_volume` and the initialization seed store the (assumed in-range)
native value directly without clamping. -/
theorem C1_range_invariant (st : VolumeController)
    (hst : inUnitRange st.current_volume) (level : ℚ)
    (setCall : NativeResult Unit) (readCall : NativeResult ℚ)
    (hread : ∀ v, readCall = .ok v → inUnitRange v)
    (pycaw : Bool) (openCall : NativeResult Unit) :
    inUnitRange VolumeController.initState.current_volume ∧
    inUnitRange (set_volume st level setCall).2.current_volume ∧
    inUnitRange (get_volume st readCall).2.current_volume ∧
    inUnitRange (initialize_audio pycaw openCall readCall st).2.current_volume := by
  refine ⟨⟨by norm_num [VolumeController.initState], by norm_num [VolumeController.initState]⟩, ?_, ?_, ?_⟩
  · obtain ⟨vi, cv⟩ := st
    cases vi <;> cases setCall <;>
      first
        | exact hst
        | exact clamp_mem level
  · obtain ⟨vi, cv⟩ := st
    cases vi with
    | false => exact hst
    | true =>
      cases readCall with
      | ok v => exact hread v rfl
      | err => exact hst
  · obtain ⟨vi, cv⟩ := st
    cases pycaw with
    | false => exact hst
    | true =>
      cases openCall with
      | err => exact hst
      | ok u =>
        cases readCall with
        | ok v => exact hread v rfl
        | err => exact hst

/-- C1 witness at a concrete state, level and native outcomes. -/
theorem C1_range_invariant_witness :
    inUnitRange (set_volume ⟨true, mkRat 1 2⟩ 5 (.ok ())).2.current_volume :=
  (C1_range_invariant ⟨true, mkRat 1 2⟩ ⟨by decide, by decide⟩ 5 (.ok ())
    NativeResult.err (fun v hv => NativeResult.noConfusion hv)
    true (.ok ())).2.1

/-- C4 counterexample: a JSON `null` level is non-numeric, yet the
handler answers 500 (the `float()` call raises `TypeError`, caught by
the generic branch), not the claimed 400 "Invalid level value". -/
theorem C4_counterexample :
    (handle_post_volume (some [("level", Json.null)])
        VolumeController.initState (.ok ())).1.1 = 500 ∧
    (handle_post_volume (some [("level", Json.null)])
        VolumeController.initState (.ok ())).1.1 ≠ 400 := by
  decide

/-- C4 amended: a missing `level` field yields 400 "Missing level
parameter"; a level whose `float()` coercion raises `ValueError` (an
unparsable string) yields 400 "Invalid level value"; a coerced value
outside [0,1] yields 400 "Level must be between 0.0 and 1.0" with no
clamping at the HTTP layer; but a level raising `TypeError` (null,
array, object) yields 500 instead of a 400 validation error. -/
theorem C4_post_validation (st : VolumeController) (setCall : NativeResult Unit)
    (data : List (String × Json)) (v : Json) (q : ℚ) :
    (handle_post_volume none st setCall =
      ((400, Resp.err "Missing level parameter"), st)) ∧
    (handle_post_volume (some []) st setCall =
      ((400, Resp.err "Missing level parameter"), st)) ∧
    (data.lookup "level" = none →
      handle_post_volume (some data) st setCall =
        ((400, Resp.err "Missing level parameter"), st)) ∧
    (data.lookup "level" = some v → pyFloat v = .error .valueError →
      handle_post_volume (some data) st setCall =
        ((400, Resp.err "Invalid level value"), st)) ∧
    (data.lookup "level" = some v → pyFloat v = .ok q → ¬ (0 ≤ q ∧ q ≤ 1) →
      handle_post_volume (some data) st setCall =
        ((400, Resp.err "Level must be between 0.0 and 1.0"), st)) ∧
    (data.lookup "level" = some v → pyFloat v = .error .typeError →
      handle_post_volume (some data) st setCall =
        ((500, Resp.excText .typeError), st)) := by
  refine ⟨rfl, rfl, fun hn => ?_, fun hv hf => ?_, fun hv hf hq => ?_, fun hv hf => ?_⟩
  · cases data with
    | nil => rfl
    | cons hd tl =>
      simp only [handle_post_volume, List.isEmpty_cons, hn]
      rfl
  · rw [handle_post_volume_lookup st setCall data v hv, hf]
  · rw [handle_post_volume_lookup st setCall data v hv, hf]
    simp [hq]
  · rw [handle_post_volume_lookup st setCall data v hv, hf]

/-- C4 witness at a concrete unparsable-string level. -/
theorem C4_post_validation_witness :
    handle_post_volume (some [("level", Json.str "loud")])
        VolumeController.initState (.ok ()) =
      ((400, Resp.err "Invalid level value"), VolumeController.initState) :=
  (C4_post_validation VolumeController.initState (.ok ())
    [("level", Json.str "loud")] (Json.str "loud") 0).2.2.2.1 rfl (by decide)

/-- C6: a numeric level outside [0,1] posted to `/volume` yields 400
with the range error and returns the controller state untouched —
`set_volume` is never reached on that path. -/
theorem C6_out_of_range_preserves_state (st : VolumeController)
    (setCall : NativeResult Unit) (data : List (String × Json)) (q : ℚ)
    (hv : data.lookup "level" = some (Json.num q)) (hq : ¬ (0 ≤ q ∧ q ≤ 1)) :
    handle_post_volume (some data) st setCall =
      ((400, Resp.err "Level must be between 0.0 and 1.0"), st) := by
  rw [handle_post_volume_lookup st setCall data _ hv]
  simp [pyFloat, hq]

/-- C6 witness at level 2. -/
theorem C6_out_of_range_preserves_state_witness :
    handle_post_volume (some [("level", Json.num 2)])
        VolumeController.initState (.ok ()) =
      ((400, Resp.err "Level must be between 0.0 and 1.0"),
        VolumeController.initState) :=
  C6_out_of_range_preserves_state VolumeController.initState (.ok ())
    [("level", Json.num 2)] 2 rfl (by decide)

/-- C7: with a working endpoint (native set succeeds and the following
native read returns exactly the value the set passed down), setting a
level in [0,1] and then reading gives back that level. -/
theorem C7_round_trip (st : VolumeController) (level : ℚ)
    (h0 : 0 ≤ level) (h1 : level ≤ 1) (hi : st.volume_interface = true) :
    (get_volume (set_volume st level (.ok ())).2
        (.ok (max 0 (min 1 level)))).1 = level := by
  rw [set_volume_ok st level hi]
  simp [get_volume]
  rw [min_eq_right h1, max_eq_right h0]

/-- C7 witness at level 3/10. -/
theorem C7_round_trip_witness :
    (get_volume (set_volume ⟨true, mkRat 1 2⟩ (mkRat 3 10) (.ok ())).2
        (.ok (max 0 (min 1 (mkRat 3 10))))).1 = mkRat 3 10 :=
  C7_round_trip ⟨true, mkRat 1 2⟩ (mkRat 3 10) (by decide) (by decide) rfl

/-- C9: any level value that `float()` coerces — numbers, numeric
strings like "0.5", and booleans (true ↦ 1.0, false ↦ 0.0) — passes the
same range check and set path, answering 200 on success, despite the
field being documented as numeric. -/
theorem C9_float_coercion (st : VolumeController) (data : List (String × Json))
    (v : Json) (q : ℚ) (hv : data.lookup "level" = some v)
    (hf : pyFloat v = .ok q) (h0 : 0 ≤ q) (h1 : q ≤ 1)
    (hi : st.volume_interface = true) :
    handle_post_volume (some data) st (.ok ()) =
      ((200, Resp.okSet q), { st with current_volume := q }) ∧
    pyFloat (Json.bool true) = .ok 1 ∧
    pyFloat (Json.bool false) = .ok 0 ∧
    pyFloat (Json.str "0.5") = .ok (1/2) := by
  refine ⟨?_, rfl, rfl, ?_⟩
  · rw [handle_post_volume_lookup st (.ok ()) data v hv, hf]
    have hrange : (0 ≤ q ∧ q ≤ 1) := ⟨h0, h1⟩
    simp only [hrange, if_true, if_pos]
    rw [set_volume_ok st q hi]
    rw [min_eq_right h1, max_eq_right h0]
    simp
  · have h : pyFloat (Json.str "0.5") = .ok (mkRat 5 10) := by decide
    rw [h]
    norm_num [Rat.mkRat_eq_div]

/-- C9 witness: the string "0.5" is accepted and sets the volume. -/
theorem C9_float_coercion_witness :
    handle_post_volume (some [("level", Json.str "0.5")])
        ⟨true, mkRat 1 5⟩ (.ok ()) =
      ((200, Resp.okSet (mkRat 5 10)), ⟨true, mkRat 5 10⟩) :=
  (C9_float_coercion ⟨true, mkRat 1 5⟩ [("level", Json.str "0.5")]
    (Json.str "0.5") (mkRat 5 10) rfl (by decide) (by decide) (by decide)
    rfl).1

/-- C10: a `level` of JSON null, array or object makes `float()` raise
`TypeError` (not `ValueError`), so the request falls to the generic
exception branch: 500 with the exception text, and the controller state
is untouched. -/
theorem C10_type_error_500 (st : VolumeController) (setCall : NativeResult Unit)
    (data : List (String × Json)) (v : Json)
    (hv : data.lookup "level" = some v)
    (h : v = Json.null ∨ (∃ l, v = Json.arr l) ∨ (∃ f, v = Json.obj f)) :
    pyFloat v = .error .typeError ∧
    handle_post_volume (some data) st setCall =
      ((500, Resp.excText .typeError), st) := by
  have he : pyFloat v = .error .typeError := by
    rcases h with rfl | ⟨l, rfl⟩ | ⟨f, rfl⟩ <;> rfl
  refine ⟨he, ?_⟩
  rw [handle_post_volume_lookup st setCall data v hv, he]

/-- C10 witness at a JSON null level. -/
theorem C10_type_error_500_witness :
    handle_post_volume (some [("level", Json.null)])
        VolumeController.initState (.ok ()) =
      ((500, Resp.excText PyError.typeError), VolumeController.initState) :=
  (C10_type_error_500 VolumeController.initState (.ok ())
    [("level", Json.null)] Json.null rfl (Or.inl rfl)).2
